import Mathlib

/-!
# IPaymentStream: the `App` form component of `src/app.js`

The component keeps four `React.useState` cells and one event handler,
`openStream`.  The embedding is shallow:

* the four cells are a record `State`;
* an event handler is a function from the state it starts in to an `Outcome`
  (how the body completed, the state left by the setters it called, and the
  console / dialog effects it emitted, in order);
* `App` is the render function: it maps a state to a `View` whose elements carry
  the handlers closed over that render's state, as the JSX does;
* a user interaction is dispatched on the view rendered from the current state.
-/

namespace IPaymentStream

/-! ## Data model -/

/-- The four `React.useState` cells of `App`, in declaration order. `null` is `none`. -/
structure State where
  streamId : Option String
  payee : String
  ratePerSecond : String
  depositAmount : String
deriving DecidableEq, Repr

/-- The values passed to `console.log` by this program: a string, or an object literal
given as its key/value pairs in property order. -/
inductive JsValue where
  | str (s : String)
  | obj (fields : List (String × String))
deriving DecidableEq, Repr

/-- The externally observable effects of a handler. -/
inductive Effect where
  | consoleLog (args : List JsValue)
  | alert (message : String)
deriving DecidableEq, Repr

/-- A thrown JavaScript exception. -/
structure JsError where
  message : String
deriving DecidableEq, Repr

/-- The completion of a handler body: it ran to its end, or it threw. -/
inductive Completion where
  | normal
  | thrown (e : JsError)
deriving DecidableEq, Repr

/-- What running a handler leaves behind. -/
structure Outcome where
  completion : Completion
  state : State
  effects : List Effect
deriving DecidableEq, Repr

/-- An event handler body, run from the state current at the event. -/
def Handler : Type := State → Outcome

/-- Statement sequencing `h; k`: `k` runs only when `h` completed normally, from the state
`h` left, and its effects follow those of `h`. -/
def Handler.andThen (h k : Handler) : Handler := fun st =>
  let a := h st
  match a.completion with
  | Completion.normal =>
    let b := k a.state
    { completion := b.completion, state := b.state, effects := a.effects ++ b.effects }
  | Completion.thrown _ => a

/-! ## Primitives used by the component -/

/-- The call `console.log(...args)`: one log record, no state change. -/
def consoleLog (args : List JsValue) : Handler := fun st =>
  { completion := Completion.normal, state := st, effects := [Effect.consoleLog args] }

/-- The call `alert(message)`: one dialog, no state change. -/
def alert (message : String) : Handler := fun st =>
  { completion := Completion.normal, state := st, effects := [Effect.alert message] }

/-- Setter of the `streamId` cell (declared by `useState`, called nowhere in `app.js`). -/
def setStreamId (v : Option String) : Handler := fun st =>
  { completion := Completion.normal, state := { st with streamId := v }, effects := [] }

/-- Setter of the `payee` cell. -/
def setPayee (v : String) : Handler := fun st =>
  { completion := Completion.normal, state := { st with payee := v }, effects := [] }

/-- Setter of the `ratePerSecond` cell. -/
def setRatePerSecond (v : String) : Handler := fun st =>
  { completion := Completion.normal, state := { st with ratePerSecond := v }, effects := [] }

/-- Setter of the `depositAmount` cell. -/
def setDepositAmount (v : String) : Handler := fun st =>
  { completion := Completion.normal, state := { st with depositAmount := v }, effects := [] }

/-! ## The component -/

/-- The values given to `React.useState`: `null`, `''`, `''`, `''`. -/
def initialState : State :=
  { streamId := none, payee := "", ratePerSecond := "", depositAmount := "" }

/-- The handler `openStream` of the render whose cells are `cur`: it logs the label and the
object literal `{ payee, ratePerSecond, depositAmount }`, then shows the alert. It awaits
nothing, so the whole body runs at the click. -/
def openStream (cur : State) : Handler :=
  (consoleLog
    [JsValue.str "Opening stream with:",
     JsValue.obj [("payee", cur.payee),
                  ("ratePerSecond", cur.ratePerSecond),
                  ("depositAmount", cur.depositAmount)]]).andThen
  (alert "Stream opened! (Placeholder)")

/-- An `<input>` element with the attributes the JSX gives it; `onChange` receives
`e.target.value`. -/
structure InputElem where
  type : String
  placeholder : String
  value : String
  onChange : String → Handler

/-- The `<button>` element. -/
structure ButtonElem where
  label : String
  onClick : Handler

/-- The second card: `<h2>` title and the `<p>` line. -/
structure StreamInfoCard where
  title : String
  line : String
deriving DecidableEq, Repr

/-- The element tree returned by `App` (styling left out). -/
structure View where
  heading : String
  formTitle : String
  payeeInput : InputElem
  ratePerSecondInput : InputElem
  depositAmountInput : InputElem
  openStreamButton : ButtonElem
  streamInfo : Option StreamInfoCard

/-- The expression `streamId && (<div className="card">...</div>)`: the card is rendered
exactly when `streamId` is truthy, that is neither `null` nor the empty string. -/
def streamInfoPanel (streamId : Option String) : Option StreamInfoCard :=
  match streamId with
  | none => none
  | some id =>
    if id = "" then none
    else some { title := "Stream Information", line := "Stream ID: " ++ id }

/-- The render function of the component. -/
def App (st : State) : View :=
  { heading := "Micropayment Network"
    formTitle := "Open a New Stream"
    payeeInput :=
      { type := "text", placeholder := "Payee Address", value := st.payee,
        onChange := fun v => setPayee v }
    ratePerSecondInput :=
      { type := "text", placeholder := "Rate per Second (in wei)", value := st.ratePerSecond,
        onChange := fun v => setRatePerSecond v }
    depositAmountInput :=
      { type := "text", placeholder := "Deposit Amount (in wei)", value := st.depositAmount,
        onChange := fun v => setDepositAmount v }
    openStreamButton := { label := "Open Stream", onClick := openStream st }
    streamInfo := streamInfoPanel st.streamId }

/-! ## Interactions -/

/-- What a user can do with the rendered form. -/
inductive Interaction where
  | editPayee (s : String)
  | editRatePerSecond (s : String)
  | editDepositAmount (s : String)
  | clickOpenStream
deriving DecidableEq, Repr

/-- The handler the view attaches to the element an interaction targets. -/
def dispatch (v : View) : Interaction → Handler
  | Interaction.editPayee s => v.payeeInput.onChange s
  | Interaction.editRatePerSecond s => v.ratePerSecondInput.onChange s
  | Interaction.editDepositAmount s => v.depositAmountInput.onChange s
  | Interaction.clickOpenStream => v.openStreamButton.onClick

/-- One interaction: render the current state, run the targeted handler from it. -/
def step (st : State) (ev : Interaction) : Outcome :=
  dispatch (App st) ev st

/-- The state after a sequence of interactions (the component re-renders after each). -/
def run : State → List Interaction → State
  | st, [] => st
  | st, ev :: evs => run (step st ev).state evs

/-- The effects emitted during a sequence of interactions, in order. -/
def trace : State → List Interaction → List Effect
  | _, [] => []
  | st, ev :: evs => (step st ev).effects ++ trace (step st ev).state evs

/-! ## Observations on effect traces -/

/-- The log records of a trace: the argument list of each `console.log` call. -/
def logRecords : List Effect → List (List JsValue)
  | [] => []
  | Effect.consoleLog args :: es => args :: logRecords es
  | Effect.alert _ :: es => logRecords es

/-- The dialogs of a trace: the message of each `alert` call. -/
def alertTexts : List Effect → List String
  | [] => []
  | Effect.consoleLog _ :: es => alertTexts es
  | Effect.alert m :: es => m :: alertTexts es

/-- The label of a log record: its first argument. -/
def logLabel (args : List JsValue) : Option JsValue := args.head?

/-- The payload of a log record: the arguments after the label. -/
def logPayload (args : List JsValue) : List JsValue := args.tail

/-- The kind of an effect, its content forgotten. -/
inductive EffectKind where
  | log
  | dialog
deriving DecidableEq, Repr

/-- The kind of an effect. -/
def Effect.kind : Effect → EffectKind
  | Effect.consoleLog _ => EffectKind.log
  | Effect.alert _ => EffectKind.dialog

/-- A trace with every log payload erased (the label is kept). -/
def erasePayloads : List Effect → List Effect
  | [] => []
  | Effect.consoleLog args :: es => Effect.consoleLog (args.take 1) :: erasePayloads es
  | Effect.alert m :: es => Effect.alert m :: erasePayloads es

/-! ## The echo specification, in the words of the spec -/

/-- The three inputs of the form. -/
inductive Field where
  | payee
  | ratePerSecond
  | depositAmount
deriving DecidableEq, Repr

/-- The string an interaction types into a field, if it is an edit of that field. -/
def typedInto : Field → Interaction → Option String
  | Field.payee, Interaction.editPayee s => some s
  | Field.ratePerSecond, Interaction.editRatePerSecond s => some s
  | Field.depositAmount, Interaction.editDepositAmount s => some s
  | _, _ => none

/-- The last string typed into a field over a sequence of interactions, or the empty string
when the field was never edited. -/
def lastTyped (f : Field) (evs : List Interaction) : String :=
  ((evs.filterMap (typedInto f)).getLast?).getD ""

/-- The value the rendered view displays in a field's input. -/
def displayed (f : Field) (st : State) : String :=
  match f with
  | Field.payee => (App st).payeeInput.value
  | Field.ratePerSecond => (App st).ratePerSecondInput.value
  | Field.depositAmount => (App st).depositAmountInput.value

/-! ## Helper lemmas -/

theorem step_editPayee (st : State) (s : String) :
    step st (Interaction.editPayee s) =
      { completion := Completion.normal, state := { st with payee := s }, effects := [] } := rfl

theorem step_editRatePerSecond (st : State) (s : String) :
    step st (Interaction.editRatePerSecond s) =
      { completion := Completion.normal, state := { st with ratePerSecond := s },
        effects := [] } := rfl

theorem step_editDepositAmount (st : State) (s : String) :
    step st (Interaction.editDepositAmount s) =
      { completion := Completion.normal, state := { st with depositAmount := s },
        effects := [] } := rfl

theorem openStream_eq (cur st : State) :
    openStream cur st =
      { completion := Completion.normal
        state := st
        effects :=
          [Effect.consoleLog
            [JsValue.str "Opening stream with:",
             JsValue.obj [("payee", cur.payee),
                          ("ratePerSecond", cur.ratePerSecond),
                          ("depositAmount", cur.depositAmount)]],
           Effect.alert "Stream opened! (Placeholder)"] } := rfl

theorem step_clickOpenStream (st : State) :
    step st Interaction.clickOpenStream = openStream st st := rfl

theorem step_streamId (st : State) (ev : Interaction) :
    (step st ev).state.streamId = st.streamId := by
  cases ev <;> rfl

theorem run_streamId (evs : List Interaction) (st : State) :
    (run st evs).streamId = st.streamId := by
  induction evs generalizing st with
  | nil => rfl
  | cons ev evs ih =>
    show (run (step st ev).state evs).streamId = st.streamId
    rw [ih, step_streamId]

theorem run_append (xs ys : List Interaction) (st : State) :
    run st (xs ++ ys) = run (run st xs) ys := by
  induction xs generalizing st with
  | nil => rfl
  | cons ev xs ih => exact ih (step st ev).state

theorem trace_append (xs ys : List Interaction) (st : State) :
    trace st (xs ++ ys) = trace st xs ++ trace (run st xs) ys := by
  induction xs generalizing st with
  | nil => rfl
  | cons ev xs ih =>
    show (step st ev).effects ++ trace (step st ev).state (xs ++ ys) =
      ((step st ev).effects ++ trace (step st ev).state xs) ++ trace (run (step st ev).state xs) ys
    rw [ih, List.append_assoc]

theorem getLast?_cons_getD (s d : String) (l : List String) :
    ((s :: l).getLast?).getD d = (l.getLast?).getD s := by
  cases l with
  | nil => rfl
  | cons a l => simp [List.getLast?_cons_cons, List.getLast?_eq_getLast]

/-- The field values after a run from any state: the last string typed into the field, or the
value the field started with. -/
theorem run_fields (evs : List Interaction) (st : State) :
    (run st evs).payee = ((evs.filterMap (typedInto Field.payee)).getLast?).getD st.payee ∧
    (run st evs).ratePerSecond =
      ((evs.filterMap (typedInto Field.ratePerSecond)).getLast?).getD st.ratePerSecond ∧
    (run st evs).depositAmount =
      ((evs.filterMap (typedInto Field.depositAmount)).getLast?).getD st.depositAmount := by
  induction evs generalizing st with
  | nil => exact ⟨rfl, rfl, rfl⟩
  | cons ev evs ih =>
    obtain ⟨h1, h2, h3⟩ := ih (step st ev).state
    cases ev with
    | editPayee s =>
      refine ⟨?_, ?_, ?_⟩
      · rw [show run st (Interaction.editPayee s :: evs)
            = run (step st (Interaction.editPayee s)).state evs from rfl, h1]
        simp [typedInto, getLast?_cons_getD, step_editPayee]
      · rw [show run st (Interaction.editPayee s :: evs)
            = run (step st (Interaction.editPayee s)).state evs from rfl, h2]
        simp [typedInto, step_editPayee]
      · rw [show run st (Interaction.editPayee s :: evs)
            = run (step st (Interaction.editPayee s)).state evs from rfl, h3]
        simp [typedInto, step_editPayee]
    | editRatePerSecond s =>
      refine ⟨?_, ?_, ?_⟩
      · rw [show run st (Interaction.editRatePerSecond s :: evs)
            = run (step st (Interaction.editRatePerSecond s)).state evs from rfl, h1]
        simp [typedInto, step_editRatePerSecond]
      · rw [show run st (Interaction.editRatePerSecond s :: evs)
            = run (step st (Interaction.editRatePerSecond s)).state evs from rfl, h2]
        simp [typedInto, getLast?_cons_getD, step_editRatePerSecond]
      · rw [show run st (Interaction.editRatePerSecond s :: evs)
            = run (step st (Interaction.editRatePerSecond s)).state evs from rfl, h3]
        simp [typedInto, step_editRatePerSecond]
    | editDepositAmount s =>
      refine ⟨?_, ?_, ?_⟩
      · rw [show run st (Interaction.editDepositAmount s :: evs)
            = run (step st (Interaction.editDepositAmount s)).state evs from rfl, h1]
        simp [typedInto, step_editDepositAmount]
      · rw [show run st (Interaction.editDepositAmount s :: evs)
            = run (step st (Interaction.editDepositAmount s)).state evs from rfl, h2]
        simp [typedInto, step_editDepositAmount]
      · rw [show run st (Interaction.editDepositAmount s :: evs)
            = run (step st (Interaction.editDepositAmount s)).state evs from rfl, h3]
        simp [typedInto, getLast?_cons_getD, step_editDepositAmount]
    | clickOpenStream =>
      refine ⟨?_, ?_, ?_⟩
      · rw [show run st (Interaction.clickOpenStream :: evs)
            = run (step st Interaction.clickOpenStream).state evs from rfl, h1]
        simp [typedInto, step_clickOpenStream, openStream_eq]
      · rw [show run st (Interaction.clickOpenStream :: evs)
            = run (step st Interaction.clickOpenStream).state evs from rfl, h2]
        simp [typedInto, step_clickOpenStream, openStream_eq]
      · rw [show run st (Interaction.clickOpenStream :: evs)
            = run (step st Interaction.clickOpenStream).state evs from rfl, h3]
        simp [typedInto, step_clickOpenStream, openStream_eq]

/-! ## The claims -/

/-- C1: after every finite sequence of interactions (edits of the three inputs with any
strings, clicks of the button) from the initial state, `streamId` is still `null`, and the
view rendered from the resulting state has no "Stream Information" panel. -/
theorem streamId_null_after_interactions (evs : List Interaction) :
    (run initialState evs).streamId = none ∧
    (App (run initialState evs)).streamInfo = none := by
  have h : (run initialState evs).streamId = none := run_streamId evs initialState
  refine ⟨h, ?_⟩
  show streamInfoPanel (run initialState evs).streamId = none
  rw [h]
  rfl

/-- C2: for every state and every string `s`, the change handler of each input sets that
input's own cell to `s` and leaves the other three cells as they were; the edited input then
displays `s`, and the other two inputs display what they displayed before. -/
theorem edit_changes_own_field_only (st : State) (s : String) :
    ((step st (Interaction.editPayee s)).state = { st with payee := s } ∧
      displayed Field.payee (step st (Interaction.editPayee s)).state = s ∧
      displayed Field.ratePerSecond (step st (Interaction.editPayee s)).state
        = displayed Field.ratePerSecond st ∧
      displayed Field.depositAmount (step st (Interaction.editPayee s)).state
        = displayed Field.depositAmount st ∧
      (step st (Interaction.editPayee s)).state.streamId = st.streamId) ∧
    ((step st (Interaction.editRatePerSecond s)).state = { st with ratePerSecond := s } ∧
      displayed Field.ratePerSecond (step st (Interaction.editRatePerSecond s)).state = s ∧
      displayed Field.payee (step st (Interaction.editRatePerSecond s)).state
        = displayed Field.payee st ∧
      displayed Field.depositAmount (step st (Interaction.editRatePerSecond s)).state
        = displayed Field.depositAmount st ∧
      (step st (Interaction.editRatePerSecond s)).state.streamId = st.streamId) ∧
    ((step st (Interaction.editDepositAmount s)).state = { st with depositAmount := s } ∧
      displayed Field.depositAmount (step st (Interaction.editDepositAmount s)).state = s ∧
      displayed Field.payee (step st (Interaction.editDepositAmount s)).state
        = displayed Field.payee st ∧
      displayed Field.ratePerSecond (step st (Interaction.editDepositAmount s)).state
        = displayed Field.ratePerSecond st ∧
      (step st (Interaction.editDepositAmount s)).state.streamId = st.streamId) :=
  ⟨⟨rfl, rfl, rfl, rfl, rfl⟩, ⟨rfl, rfl, rfl, rfl, rfl⟩, ⟨rfl, rfl, rfl, rfl, rfl⟩⟩

/-- C3: for every state, one invocation of `openStream` (a click of the button) emits exactly
two effects: one log record whose payload is the object with the keys `payee`,
`ratePerSecond`, `depositAmount` holding the three current cell values, and one alert; with
the fields "0xABC…", "100", "1000" the record holds those three literals. -/
theorem openStream_one_record_one_alert (st : State) :
    (step st Interaction.clickOpenStream).effects =
      [Effect.consoleLog
        [JsValue.str "Opening stream with:",
         JsValue.obj [("payee", st.payee),
                      ("ratePerSecond", st.ratePerSecond),
                      ("depositAmount", st.depositAmount)]],
       Effect.alert "Stream opened! (Placeholder)"] ∧
    (logRecords (step st Interaction.clickOpenStream).effects).map logPayload =
      [[JsValue.obj [("payee", st.payee),
                     ("ratePerSecond", st.ratePerSecond),
                     ("depositAmount", st.depositAmount)]]] ∧
    (alertTexts (step st Interaction.clickOpenStream).effects).length = 1 ∧
    (step { streamId := st.streamId, payee := "0xABC…", ratePerSecond := "100",
            depositAmount := "1000" } Interaction.clickOpenStream).effects =
      [Effect.consoleLog
        [JsValue.str "Opening stream with:",
         JsValue.obj [("payee", "0xABC…"), ("ratePerSecond", "100"),
                      ("depositAmount", "1000")]],
       Effect.alert "Stream opened! (Placeholder)"] :=
  ⟨rfl, rfl, rfl, rfl⟩

/-- C4: `openStream` never fails and rejects no input: for every triple of strings in the
fields (the empty string, non-numeric and negative values included) its body completes
normally, and the values of the log record are the field strings themselves, unparsed and
untrimmed. -/
theorem openStream_accepts_every_input (sid : Option String) (p r d : String) :
    (step { streamId := sid, payee := p, ratePerSecond := r, depositAmount := d }
        Interaction.clickOpenStream).completion = Completion.normal ∧
    logRecords (step { streamId := sid, payee := p, ratePerSecond := r, depositAmount := d }
        Interaction.clickOpenStream).effects =
      [[JsValue.str "Opening stream with:",
        JsValue.obj [("payee", p), ("ratePerSecond", r), ("depositAmount", d)]]] ∧
    (step { streamId := sid, payee := "", ratePerSecond := " abc ", depositAmount := "-5" }
        Interaction.clickOpenStream).completion = Completion.normal ∧
    logRecords (step { streamId := sid, payee := "", ratePerSecond := " abc ",
                       depositAmount := "-5" } Interaction.clickOpenStream).effects =
      [[JsValue.str "Opening stream with:",
        JsValue.obj [("payee", ""), ("ratePerSecond", " abc "), ("depositAmount", "-5")]]] :=
  ⟨rfl, rfl, rfl, rfl⟩

/-- C5: for every state, a click of the button (one invocation of `openStream`) leaves the
four cells as they were; hence an interaction that changes the state is an edit of one of
the three inputs. -/
theorem openStream_leaves_state (st : State) :
    (step st Interaction.clickOpenStream).state = st ∧
    (openStream st st).state = st ∧
    ∀ ev : Interaction, (step st ev).state = st ∨
      (∃ s, ev = Interaction.editPayee s) ∨
      (∃ s, ev = Interaction.editRatePerSecond s) ∨
      (∃ s, ev = Interaction.editDepositAmount s) := by
  refine ⟨rfl, rfl, ?_⟩
  intro ev
  cases ev with
  | editPayee s => exact Or.inr (Or.inl ⟨s, rfl⟩)
  | editRatePerSecond s => exact Or.inr (Or.inr (Or.inl ⟨s, rfl⟩))
  | editDepositAmount s => exact Or.inr (Or.inr (Or.inr ⟨s, rfl⟩))
  | clickOpenStream => exact Or.inl rfl

/-- C6: after every finite sequence of interactions from the initial state, each input
displays the last string typed into it, or the empty string when it was never edited,
whatever was done to the other inputs and however many clicks came in between; and a click
added at the end of the sequence logs exactly those three strings. -/
theorem inputs_echo_last_typed (evs : List Interaction) :
    displayed Field.payee (run initialState evs) = lastTyped Field.payee evs ∧
    displayed Field.ratePerSecond (run initialState evs) = lastTyped Field.ratePerSecond evs ∧
    displayed Field.depositAmount (run initialState evs) = lastTyped Field.depositAmount evs ∧
    trace initialState (evs ++ [Interaction.clickOpenStream]) =
      trace initialState evs ++
        [Effect.consoleLog
          [JsValue.str "Opening stream with:",
           JsValue.obj [("payee", lastTyped Field.payee evs),
                        ("ratePerSecond", lastTyped Field.ratePerSecond evs),
                        ("depositAmount", lastTyped Field.depositAmount evs)]],
         Effect.alert "Stream opened! (Placeholder)"] := by
  obtain ⟨h1, h2, h3⟩ := run_fields evs initialState
  have e1 : (run initialState evs).payee = lastTyped Field.payee evs := h1
  have e2 : (run initialState evs).ratePerSecond = lastTyped Field.ratePerSecond evs := h2
  have e3 : (run initialState evs).depositAmount = lastTyped Field.depositAmount evs := h3
  refine ⟨e1, e2, e3, ?_⟩
  rw [trace_append, ← e1, ← e2, ← e3]
  rfl

/-- C7: in the initial state the three field cells are the empty string and `streamId` is
`null`, so the first render shows three inputs with empty values and no "Stream Information"
panel. -/
theorem initial_render_empty :
    initialState.payee = "" ∧ initialState.ratePerSecond = "" ∧
    initialState.depositAmount = "" ∧ initialState.streamId = none ∧
    (App initialState).payeeInput.value = "" ∧
    (App initialState).ratePerSecondInput.value = "" ∧
    (App initialState).depositAmountInput.value = "" ∧
    (App initialState).streamInfo = none :=
  ⟨rfl, rfl, rfl, rfl, rfl, rfl, rfl, rfl⟩

/-- C8: the acknowledgement of `openStream` does not depend on the form: for every two states
the alert text is the constant "Stream opened! (Placeholder)" and the log label is the
constant "Opening stream with:"; the two traces are equal once the log payloads are erased,
and the log records are equal exactly when the three fields are. -/
theorem openStream_ack_independent_of_form (s₁ s₂ : State) :
    alertTexts (step s₁ Interaction.clickOpenStream).effects =
      alertTexts (step s₂ Interaction.clickOpenStream).effects ∧
    alertTexts (step s₁ Interaction.clickOpenStream).effects =
      ["Stream opened! (Placeholder)"] ∧
    (logRecords (step s₁ Interaction.clickOpenStream).effects).map logLabel =
      [some (JsValue.str "Opening stream with:")] ∧
    (logRecords (step s₂ Interaction.clickOpenStream).effects).map logLabel =
      [some (JsValue.str "Opening stream with:")] ∧
    erasePayloads (step s₁ Interaction.clickOpenStream).effects =
      erasePayloads (step s₂ Interaction.clickOpenStream).effects ∧
    (logRecords (step s₁ Interaction.clickOpenStream).effects =
        logRecords (step s₂ Interaction.clickOpenStream).effects ↔
      s₁.payee = s₂.payee ∧ s₁.ratePerSecond = s₂.ratePerSecond ∧
        s₁.depositAmount = s₂.depositAmount) := by
  refine ⟨rfl, rfl, rfl, rfl, rfl, ?_⟩
  simp [step_clickOpenStream, openStream_eq, logRecords]

/-- C9: for every state, `openStream` emits its effects in a fixed order: the log record is
the first effect and the alert is the second and last. -/
theorem openStream_logs_before_alert (st : State) :
    (step st Interaction.clickOpenStream).effects.map Effect.kind =
      [EffectKind.log, EffectKind.dialog] ∧
    ((step st Interaction.clickOpenStream).effects.head?).map Effect.kind
      = some EffectKind.log ∧
    ((step st Interaction.clickOpenStream).effects.getLast?).map Effect.kind
      = some EffectKind.dialog :=
  ⟨rfl, rfl, rfl⟩

end IPaymentStream
